import Mathlib

/-
Verification of `src/ui-next/scripts/find-free-port.py`.

The script is a straight-line loop:

    LOW, HIGH = 20000, 60000
    for _ in range(100):
        port = random.randint(LOW, HIGH)
        with closing(socket.socket(socket.AF_INET, socket.SOCK_STREAM)) as s:
            s.setsockopt(socket.SOL_SOCKET, socket.SO_REUSEADDR, 1)
            try:
                s.bind(('127.0.0.1', port))
            except OSError:
                continue
            print(port)
            raise SystemExit(0)
    print(0)

We embed it as a trace semantics: the environment supplies the random
draws and the outcome of each operating-system call (socket creation,
setsockopt, bind), and the program is a total function from the
environment to the list of observable events it performs, in order,
together with the final process outcome.  The `with closing(...)` block
closes the socket on every way control leaves the block: normal fall
through, `continue`, or an exception (including `SystemExit`) unwinding
through it.  In particular, on the success path the order of events is
bind, print, then close: the `print(port)` statement runs inside the
`with` block and the close only happens while `raise SystemExit(0)`
unwinds.
-/

/-- Lower bound of the candidate port range (`LOW` in the source). -/
def LOW : Nat := 20000

/-- Upper bound of the candidate port range (`HIGH` in the source). -/
def HIGH : Nat := 60000

/-- Model of Python's `random.randint lo hi` (both endpoints included):
the environment supplies an arbitrary natural number `r` and the draw
reduces it into the closed interval `[lo, hi]`. -/
def randint (lo hi r : Nat) : Nat := lo + r % (hi - lo + 1)

/-- Observable events of one run.  Sockets are identified by the index of
the attempt that created them (attempt indices start at 0). -/
inductive Ev where
  /-- `random.randint` returned `port` on attempt `attempt`. -/
  | draw (attempt port : Nat)
  /-- `socket.socket(...)` succeeded on attempt `attempt`. -/
  | create (attempt : Nat)
  /-- `socket.socket(...)` raised on attempt `attempt`; no socket exists. -/
  | createFail (attempt : Nat)
  /-- `s.setsockopt(SOL_SOCKET, SO_REUSEADDR, 1)` succeeded. -/
  | sockopt (attempt : Nat)
  /-- `s.setsockopt(...)` raised on attempt `attempt`. -/
  | sockoptFail (attempt : Nat)
  /-- `s.bind(('127.0.0.1', port))` was called; `ok` records whether it
  succeeded or raised `OSError`. -/
  | bindTry (attempt port : Nat) (ok : Bool)
  /-- the socket of attempt `attempt` was closed (`closing` context
  manager exit). -/
  | close (attempt : Nat)
  /-- `print(v)` wrote the decimal representation of `v` and a newline to
  standard output. -/
  | print (v : Nat)
deriving DecidableEq

/-- How the process ended. -/
inductive Outcome where
  /-- normal termination with the given exit code (`SystemExit(0)` or
  falling off the end of the script). -/
  | exited (code : Nat)
  /-- an uncaught exception other than `SystemExit` terminated the
  process abnormally. -/
  | crashed
deriving DecidableEq

/-- The environment of a run: the sequence of raw random values and, for
each attempt index, whether socket creation succeeds, whether
`setsockopt` succeeds, and whether a bind to `('127.0.0.1', port)`
succeeds on that attempt. -/
structure Env where
  draw : Nat → Nat
  createOk : Nat → Bool
  sockoptOk : Nat → Bool
  bindOk : Nat → Nat → Bool

/-- The loop of the script, starting at attempt index `i` with `fuel`
iterations of `range(100)` remaining.  Each branch mirrors the source:
draw the port first (line 7); if `socket.socket` raises, the exception
is uncaught (no socket was created, nothing to close); if `setsockopt`
raises inside the `with` block, the socket is closed by the context
manager and the exception is uncaught; if `bind` raises `OSError` the
`except` clause runs `continue`, which closes the socket and moves to
the next iteration; if `bind` succeeds the script prints the port and
raises `SystemExit(0)`, closing the socket while unwinding.  When the
loop completes all iterations the script prints `0` and exits
normally. -/
def runFrom (env : Env) (i : Nat) : Nat → List Ev × Outcome
  | 0 => ([Ev.print 0], Outcome.exited 0)
  | fuel + 1 =>
    let port := randint LOW HIGH (env.draw i)
    if env.createOk i then
      if env.sockoptOk i then
        if env.bindOk i port then
          ([Ev.draw i port, Ev.create i, Ev.sockopt i, Ev.bindTry i port true,
            Ev.print port, Ev.close i], Outcome.exited 0)
        else
          (Ev.draw i port :: Ev.create i :: Ev.sockopt i ::
            Ev.bindTry i port false :: Ev.close i :: (runFrom env (i + 1) fuel).1,
           (runFrom env (i + 1) fuel).2)
      else
        ([Ev.draw i port, Ev.create i, Ev.sockoptFail i, Ev.close i], Outcome.crashed)
    else
      ([Ev.draw i port, Ev.createFail i], Outcome.crashed)

/-- A full run of the script: 100 loop iterations starting at attempt
index 0. -/
def run (env : Env) : List Ev × Outcome := runFrom env 0 100

/-- Recognizer for `Ev.draw` events (one per random draw). -/
def isDraw : Ev → Bool
  | Ev.draw _ _ => true
  | _ => false

/-- Recognizer for `Ev.bindTry` events (one per call to `s.bind`). -/
def isBindTry : Ev → Bool
  | Ev.bindTry _ _ _ => true
  | _ => false

/-- Recognizer for `Ev.print` events (one per line written to stdout). -/
def isPrint : Ev → Bool
  | Ev.print _ => true
  | _ => false

/-- Environment in which every bind succeeds (all probed ports free) and
no operating-system call fails. -/
def envBindAll : Env := ⟨fun _ => 0, fun _ => true, fun _ => true, fun _ _ => true⟩

/-- Environment in which every bind raises `OSError` (no probed port
free) and no other operating-system call fails. -/
def envBindNone : Env := ⟨fun _ => 0, fun _ => true, fun _ => true, fun _ _ => false⟩

/-- Environment in which socket creation itself raises on every
attempt. -/
def envCreateRaises : Env := ⟨fun _ => 0, fun _ => false, fun _ => true, fun _ _ => true⟩

/-- The draw of `randint` lies in the closed interval `[LOW, HIGH]`. -/
theorem randint_mem (r : Nat) : LOW ≤ randint LOW HIGH r ∧ randint LOW HIGH r ≤ HIGH := by
  unfold randint LOW HIGH
  have h : r % (60000 - 20000 + 1) < 60000 - 20000 + 1 := Nat.mod_lt _ (by norm_num)
  omega

/-- Every printed value in a run of the loop is `0` or lies in
`[LOW, HIGH]`. -/
theorem runFrom_print_range (env : Env) :
    ∀ fuel i v, Ev.print v ∈ (runFrom env i fuel).1 → v = 0 ∨ (LOW ≤ v ∧ v ≤ HIGH) := by
  intro fuel
  induction fuel with
  | zero =>
    intro i v h
    simp [runFrom] at h
    exact Or.inl h
  | succ f ih =>
    intro i v h
    by_cases hc : env.createOk i = true
    · by_cases hs : env.sockoptOk i = true
      · by_cases hb : env.bindOk i (randint LOW HIGH (env.draw i)) = true
        · simp [runFrom, hc, hs, hb] at h
          exact Or.inr (h ▸ randint_mem (env.draw i))
        · simp [runFrom, hc, hs, hb] at h
          exact ih (i + 1) v h
      · simp [runFrom, hc, hs] at h
    · simp [runFrom, hc] at h

/-- Every drawn candidate port in a run of the loop lies in
`[LOW, HIGH]`. -/
theorem runFrom_draw_range (env : Env) :
    ∀ fuel i j p, Ev.draw j p ∈ (runFrom env i fuel).1 → LOW ≤ p ∧ p ≤ HIGH := by
  intro fuel
  induction fuel with
  | zero =>
    intro i j p h
    simp [runFrom] at h
  | succ f ih =>
    intro i j p h
    by_cases hc : env.createOk i = true
    · by_cases hs : env.sockoptOk i = true
      · by_cases hb : env.bindOk i (randint LOW HIGH (env.draw i)) = true
        · simp [runFrom, hc, hs, hb] at h
          exact h.2 ▸ randint_mem (env.draw i)
        · simp [runFrom, hc, hs, hb] at h
          rcases h with ⟨_, hp⟩ | h
          · exact hp ▸ randint_mem (env.draw i)
          · exact ih (i + 1) j p h
      · simp [runFrom, hc, hs] at h
        exact h.2 ▸ randint_mem (env.draw i)
    · simp [runFrom, hc] at h
      exact h.2 ▸ randint_mem (env.draw i)

/-- C2: every printed value `v` satisfies `20000 ≤ v ≤ 60000` or
`v = 0`, and every candidate port drawn on any iteration lies in the
closed interval `[20000, 60000]`, both endpoints included. -/
theorem c2_port_range (env : Env) :
    (∀ v, Ev.print v ∈ (run env).1 → v = 0 ∨ (20000 ≤ v ∧ v ≤ 60000)) ∧
    (∀ j p, Ev.draw j p ∈ (run env).1 → 20000 ≤ p ∧ p ≤ 60000) :=
  ⟨fun v h => runFrom_print_range env 100 0 v h,
   fun j p h => runFrom_draw_range env 100 0 j p h⟩

/-- Witness for C2: in the environment where the first bind succeeds the
script prints 20000, which the theorem places in range. -/
theorem c2_port_range_witness :
    Ev.print 20000 ∈ (run envBindAll).1 ∧
      (20000 = 0 ∨ (20000 ≤ 20000 ∧ 20000 ≤ 60000)) :=
  ⟨by decide, (c2_port_range envBindAll).1 20000 (by decide)⟩

/-- A run of the loop makes at most `fuel` bind attempts. -/
theorem runFrom_bindTry_le (env : Env) :
    ∀ fuel i, ((runFrom env i fuel).1.countP isBindTry) ≤ fuel := by
  intro fuel
  induction fuel with
  | zero =>
    intro i
    simp [runFrom]
    decide
  | succ f ih =>
    intro i
    by_cases hc : env.createOk i = true
    · by_cases hs : env.sockoptOk i = true
      · by_cases hb : env.bindOk i (randint LOW HIGH (env.draw i)) = true
        · simp [runFrom, hc, hs, hb, List.countP_cons, isBindTry]
        · simp [runFrom, hc, hs, hb, List.countP_cons, isBindTry]
          exact ih (i + 1)
      · simp [runFrom, hc, hs, List.countP_cons, isBindTry]
    · simp [runFrom, hc, List.countP_cons, isBindTry]

/-- C4: for every possible sequence of bind outcomes (and every
behaviour of the other operating-system calls) the program performs at
most 100 bind attempts; `run` is a total function, so every run
terminates. -/
theorem c4_at_most_100_attempts (env : Env) :
    ((run env).1.countP isBindTry) ≤ 100 :=
  runFrom_bindTry_le env 100 0

/-- The loop can only exit normally with code 0. -/
theorem runFrom_exit_zero (env : Env) :
    ∀ fuel i c, (runFrom env i fuel).2 = Outcome.exited c → c = 0 := by
  intro fuel
  induction fuel with
  | zero =>
    intro i c h
    simp [runFrom] at h
    omega
  | succ f ih =>
    intro i c h
    by_cases hc : env.createOk i = true
    · by_cases hs : env.sockoptOk i = true
      · by_cases hb : env.bindOk i (randint LOW HIGH (env.draw i)) = true
        · simp [runFrom, hc, hs, hb] at h
          omega
        · simp [runFrom, hc, hs, hb] at h
          exact ih (i + 1) c h
      · simp [runFrom, hc, hs] at h
    · simp [runFrom, hc] at h

/-- C7: whenever the run completes the algorithm (terminates normally
rather than by an uncaught exception), its exit status is 0, in both the
found and the not-found case. -/
theorem c7_exit_status_zero (env : Env) (c : Nat)
    (h : (run env).2 = Outcome.exited c) : c = 0 :=
  runFrom_exit_zero env 100 0 c h

/-- Witness for C7: the all-binds-fail run terminates normally and the
theorem forces its exit code to be 0. -/
theorem c7_exit_status_zero_witness :
    (run envBindNone).2 = Outcome.exited 0 ∧ (0 : Nat) = 0 :=
  ⟨by decide, c7_exit_status_zero envBindNone 0 (by decide)⟩

/-- In an environment where every bind fails and no other
operating-system call fails, a loop of `fuel` iterations performs
exactly `fuel` draws and `fuel` bind calls, prints the sentinel `0`,
and exits normally. -/
theorem runFrom_exhaustion (env : Env)
    (hb : ∀ i p, env.bindOk i p = false)
    (hc : ∀ i, env.createOk i = true)
    (hs : ∀ i, env.sockoptOk i = true) :
    ∀ fuel i,
      ((runFrom env i fuel).1.countP isDraw) = fuel ∧
      ((runFrom env i fuel).1.countP isBindTry) = fuel ∧
      Ev.print 0 ∈ (runFrom env i fuel).1 ∧
      (runFrom env i fuel).2 = Outcome.exited 0 := by
  intro fuel
  induction fuel with
  | zero =>
    intro i
    refine ⟨by simp [runFrom]; decide, by simp [runFrom]; decide, ?_, by simp [runFrom]⟩
    simp [runFrom]
  | succ f ih =>
    intro i
    obtain ⟨h1, h2, h3, h4⟩ := ih (i + 1)
    refine ⟨?_, ?_, ?_, ?_⟩
    · simp [runFrom, hc i, hs i, hb i, List.countP_cons, isDraw, isBindTry, h1]
    · simp [runFrom, hc i, hs i, hb i, List.countP_cons, isDraw, isBindTry, h2]
    · simp [runFrom, hc i, hs i, hb i]
      exact h3
    · simp [runFrom, hc i, hs i, hb i, h4]

/-- C3: if every one of the 100 bind attempts fails, the program makes
exactly 100 attempts (100 random draws and 100 bind calls), then prints
the sentinel value 0 and terminates normally with exit code 0;
exhaustion is not surfaced as an error. -/
theorem c3_exhaustion (env : Env)
    (hb : ∀ i p, env.bindOk i p = false)
    (hc : ∀ i, env.createOk i = true)
    (hs : ∀ i, env.sockoptOk i = true) :
    ((run env).1.countP isDraw) = 100 ∧
    ((run env).1.countP isBindTry) = 100 ∧
    Ev.print 0 ∈ (run env).1 ∧
    (run env).2 = Outcome.exited 0 :=
  runFrom_exhaustion env hb hc hs 100 0

/-- Witness for C3: the theorem applied to the concrete all-binds-fail
environment. -/
theorem c3_exhaustion_witness :
    ((run envBindNone).1.countP isDraw) = 100 ∧
    ((run envBindNone).1.countP isBindTry) = 100 ∧
    Ev.print 0 ∈ (run envBindNone).1 ∧
    (run envBindNone).2 = Outcome.exited 0 :=
  c3_exhaustion envBindNone (fun _ _ => rfl) (fun _ => rfl) (fun _ => rfl)

/-- Socket-scoping checker.  `balOk n tr = true` states that, scanning
`tr` with `n` probe sockets currently open, the number of open sockets
never leaves `{0, 1}` (a socket may only be created when none is open,
and only a currently open socket may be closed), every attempt start
(`Ev.draw`) happens with no socket open, and no socket remains open at
the end of the trace. -/
def balOk : Nat → List Ev → Bool
  | n, [] => n == 0
  | n, Ev.draw _ _ :: tr => n == 0 && balOk n tr
  | n, Ev.create _ :: tr => n == 0 && balOk (n + 1) tr
  | n, Ev.close _ :: tr => n == 1 && balOk (n - 1) tr
  | n, Ev.createFail _ :: tr => balOk n tr
  | n, Ev.sockopt _ :: tr => balOk n tr
  | n, Ev.sockoptFail _ :: tr => balOk n tr
  | n, Ev.bindTry _ _ _ :: tr => balOk n tr
  | n, Ev.print _ :: tr => balOk n tr

/-- Every trace of the loop is well scoped: starting with no socket
open, at most one is ever open, each attempt starts with none open, and
all are closed by the end. -/
theorem runFrom_balOk (env : Env) :
    ∀ fuel i, balOk 0 (runFrom env i fuel).1 = true := by
  intro fuel
  induction fuel with
  | zero =>
    intro i
    simp [runFrom, balOk]
  | succ f ih =>
    intro i
    by_cases hc : env.createOk i = true
    · by_cases hs : env.sockoptOk i = true
      · by_cases hb : env.bindOk i (randint LOW HIGH (env.draw i)) = true
        · simp [runFrom, hc, hs, hb, balOk]
        · simp [runFrom, hc, hs, hb, balOk]
          exact ih (i + 1)
      · simp [runFrom, hc, hs, balOk]
    · simp [runFrom, hc, balOk]

/-- C5: at every point of execution at most one probe socket is open,
and each probe socket is closed on every exit path of its attempt (bind
failure, bind success, or exception unwinding) before the next attempt
begins or the process exits: the run trace passes the `balOk` scoping
checker from an empty initial state. -/
theorem c5_socket_scoping (env : Env) : balOk 0 (run env).1 = true :=
  runFrom_balOk env 100 0

/-- Whenever the loop exits normally, its trace contains exactly one
print event. -/
theorem runFrom_one_print (env : Env) :
    ∀ fuel i c, (runFrom env i fuel).2 = Outcome.exited c →
      ((runFrom env i fuel).1.countP isPrint) = 1 := by
  intro fuel
  induction fuel with
  | zero =>
    intro i c _
    simp [runFrom]
    decide
  | succ f ih =>
    intro i c h
    by_cases hc : env.createOk i = true
    · by_cases hs : env.sockoptOk i = true
      · by_cases hb : env.bindOk i (randint LOW HIGH (env.draw i)) = true
        · simp [runFrom, hc, hs, hb, List.countP_cons, isPrint]
        · simp [runFrom, hc, hs, hb] at h
          simp [runFrom, hc, hs, hb, List.countP_cons, isPrint]
          exact ih (i + 1) c h
      · simp [runFrom, hc, hs] at h
    · simp [runFrom, hc] at h

/-- C8: every run that completes the algorithm (terminates normally)
writes exactly one line to standard output: its trace contains exactly
one `Ev.print` event, and each `Ev.print` event is the decimal
representation of the result followed by a newline. -/
theorem c8_single_output_line (env : Env) (c : Nat)
    (h : (run env).2 = Outcome.exited c) :
    ((run env).1.countP isPrint) = 1 :=
  runFrom_one_print env 100 0 c h

/-- Witness for C8: the run in which the first bind succeeds exits
normally and its trace has exactly one print event. -/
theorem c8_single_output_line_witness :
    (run envBindAll).2 = Outcome.exited 0 ∧
      ((run envBindAll).1.countP isPrint) = 1 :=
  ⟨by decide, c8_single_output_line envBindAll 0 (by decide)⟩

/-- Trace of one iteration whose bind succeeds: draw, create, setsockopt,
bind, print, close — the close comes after the print. -/
theorem runFrom_success_fst (env : Env) (i f : Nat)
    (hc : env.createOk i = true) (hs : env.sockoptOk i = true)
    (hb : env.bindOk i (randint LOW HIGH (env.draw i)) = true) :
    (runFrom env i (f + 1)).1 =
      [Ev.draw i (randint LOW HIGH (env.draw i)), Ev.create i, Ev.sockopt i,
        Ev.bindTry i (randint LOW HIGH (env.draw i)) true,
        Ev.print (randint LOW HIGH (env.draw i)), Ev.close i] := by
  simp [runFrom, hc, hs, hb]

/-- Outcome of one iteration whose bind succeeds: `SystemExit(0)`. -/
theorem runFrom_success_snd (env : Env) (i f : Nat)
    (hc : env.createOk i = true) (hs : env.sockoptOk i = true)
    (hb : env.bindOk i (randint LOW HIGH (env.draw i)) = true) :
    (runFrom env i (f + 1)).2 = Outcome.exited 0 := by
  simp [runFrom, hc, hs, hb]

/-- Trace of one iteration whose bind fails: the five block events, then
the rest of the loop. -/
theorem runFrom_bindfail_fst (env : Env) (i f : Nat)
    (hc : env.createOk i = true) (hs : env.sockoptOk i = true)
    (hb : env.bindOk i (randint LOW HIGH (env.draw i)) = false) :
    (runFrom env i (f + 1)).1 =
      Ev.draw i (randint LOW HIGH (env.draw i)) :: Ev.create i :: Ev.sockopt i ::
        Ev.bindTry i (randint LOW HIGH (env.draw i)) false :: Ev.close i ::
        (runFrom env (i + 1) f).1 := by
  simp [runFrom, hc, hs, hb]

/-- Outcome of one iteration whose bind fails: the loop continues. -/
theorem runFrom_bindfail_snd (env : Env) (i f : Nat)
    (hc : env.createOk i = true) (hs : env.sockoptOk i = true)
    (hb : env.bindOk i (randint LOW HIGH (env.draw i)) = false) :
    (runFrom env i (f + 1)).2 = (runFrom env (i + 1) f).2 := by
  simp [runFrom, hc, hs, hb]

/-- Trace of one iteration whose `setsockopt` raises: the socket is
still closed by the context manager. -/
theorem runFrom_sockoptFail_fst (env : Env) (i f : Nat)
    (hc : env.createOk i = true) (hs : env.sockoptOk i = false) :
    (runFrom env i (f + 1)).1 =
      [Ev.draw i (randint LOW HIGH (env.draw i)), Ev.create i,
        Ev.sockoptFail i, Ev.close i] := by
  simp [runFrom, hc, hs]

/-- Outcome of one iteration whose `setsockopt` raises: the exception is
uncaught. -/
theorem runFrom_sockoptFail_snd (env : Env) (i f : Nat)
    (hc : env.createOk i = true) (hs : env.sockoptOk i = false) :
    (runFrom env i (f + 1)).2 = Outcome.crashed := by
  simp [runFrom, hc, hs]

/-- Trace of one iteration whose socket creation raises: no socket ever
exists. -/
theorem runFrom_createFail_fst (env : Env) (i f : Nat)
    (hc : env.createOk i = false) :
    (runFrom env i (f + 1)).1 =
      [Ev.draw i (randint LOW HIGH (env.draw i)), Ev.createFail i] := by
  simp [runFrom, hc]

/-- Outcome of one iteration whose socket creation raises: the exception
is uncaught. -/
theorem runFrom_createFail_snd (env : Env) (i f : Nat)
    (hc : env.createOk i = false) :
    (runFrom env i (f + 1)).2 = Outcome.crashed := by
  simp [runFrom, hc]

/-- Every nonempty loop trace starts with the draw of its first
attempt. -/
theorem runFrom_head_draw (env : Env) (f i : Nat) :
    Ev.draw i (randint LOW HIGH (env.draw i)) ∈ (runFrom env i (f + 1)).1 := by
  cases hc : env.createOk i with
  | false => rw [runFrom_createFail_fst env i f hc]; simp
  | true =>
    cases hs : env.sockoptOk i with
    | false => rw [runFrom_sockoptFail_fst env i f hc hs]; simp
    | true =>
      cases hb : env.bindOk i (randint LOW HIGH (env.draw i)) with
      | false => rw [runFrom_bindfail_fst env i f hc hs hb]; simp
      | true => rw [runFrom_success_fst env i f hc hs hb]; simp

/-- If no operating-system call other than bind ever fails, the loop
always exits normally with code 0, whatever the bind outcomes are. -/
theorem runFrom_normal_exit (env : Env)
    (hc : ∀ k, env.createOk k = true) (hs : ∀ k, env.sockoptOk k = true) :
    ∀ fuel i, (runFrom env i fuel).2 = Outcome.exited 0 := by
  intro fuel
  induction fuel with
  | zero => intro i; simp [runFrom]
  | succ f ih =>
    intro i
    cases hb : env.bindOk i (randint LOW HIGH (env.draw i)) with
    | false => rw [runFrom_bindfail_snd env i f (hc i) (hs i) hb]; exact ih (i + 1)
    | true => exact runFrom_success_snd env i f (hc i) (hs i) hb

/-- A failed bind attempt is always followed (in the same trace) by the
close of its socket and by either the next attempt's draw or the
sentinel print. -/
theorem runFrom_bindfail_recovery (env : Env) :
    ∀ fuel i j p, Ev.bindTry j p false ∈ (runFrom env i fuel).1 →
      Ev.close j ∈ (runFrom env i fuel).1 ∧
      (Ev.draw (j + 1) (randint LOW HIGH (env.draw (j + 1))) ∈ (runFrom env i fuel).1 ∨
        Ev.print 0 ∈ (runFrom env i fuel).1) := by
  intro fuel
  induction fuel with
  | zero => intro i j p h; simp [runFrom] at h
  | succ f ih =>
    intro i j p h
    cases hc : env.createOk i with
    | false => rw [runFrom_createFail_fst env i f hc] at h; simp at h
    | true =>
      cases hs : env.sockoptOk i with
      | false => rw [runFrom_sockoptFail_fst env i f hc hs] at h; simp at h
      | true =>
        cases hb : env.bindOk i (randint LOW HIGH (env.draw i)) with
        | true => rw [runFrom_success_fst env i f hc hs hb] at h; simp at h
        | false =>
          rw [runFrom_bindfail_fst env i f hc hs hb] at h ⊢
          simp only [List.mem_cons] at h
          rcases h with h | h | h | h | h | h
          · simp at h
          · simp at h
          · simp at h
          · obtain ⟨rfl, rfl, -⟩ : j = i ∧ p = randint LOW HIGH (env.draw i) ∧ False = False := by
              simpa using h
            constructor
            · simp
            · cases f with
              | zero => right; simp [runFrom]
              | succ f2 =>
                left
                exact List.mem_cons_of_mem _ (List.mem_cons_of_mem _
                  (List.mem_cons_of_mem _ (List.mem_cons_of_mem _
                    (List.mem_cons_of_mem _ (runFrom_head_draw env f2 (j + 1))))))
          · simp at h
          · obtain ⟨h1, h2⟩ := ih (i + 1) j p h
            refine ⟨List.mem_cons_of_mem _ (List.mem_cons_of_mem _
              (List.mem_cons_of_mem _ (List.mem_cons_of_mem _
                (List.mem_cons_of_mem _ h1)))), ?_⟩
            rcases h2 with h2 | h2
            · exact Or.inl (List.mem_cons_of_mem _ (List.mem_cons_of_mem _
                (List.mem_cons_of_mem _ (List.mem_cons_of_mem _
                  (List.mem_cons_of_mem _ h2)))))
            · exact Or.inr (List.mem_cons_of_mem _ (List.mem_cons_of_mem _
                (List.mem_cons_of_mem _ (List.mem_cons_of_mem _
                  (List.mem_cons_of_mem _ h2)))))

/-- C6: whenever a bind attempt for a candidate port fails, the failure
is handled locally: the probe socket of that attempt is closed, the run
continues with the next attempt's draw (or, when the failing attempt was
the last one, the sentinel print), and in an environment where only
binds ever fail the failure never reaches the exit status — the process
still exits normally with code 0. -/
theorem c6_bind_failure_local (env : Env) (j p : Nat)
    (h : Ev.bindTry j p false ∈ (run env).1) :
    Ev.close j ∈ (run env).1 ∧
    (Ev.draw (j + 1) (randint LOW HIGH (env.draw (j + 1))) ∈ (run env).1 ∨
      Ev.print 0 ∈ (run env).1) ∧
    ((∀ k, env.createOk k = true) → (∀ k, env.sockoptOk k = true) →
      (run env).2 = Outcome.exited 0) := by
  obtain ⟨h1, h2⟩ := runFrom_bindfail_recovery env 100 0 j p h
  exact ⟨h1, h2, fun hc hs => runFrom_normal_exit env hc hs 100 0⟩

/-- Witness for C6: in the all-binds-fail run, the first attempt's
failed bind is followed by its close and by the second attempt's draw,
and the run exits normally. -/
theorem c6_bind_failure_local_witness :
    Ev.bindTry 0 20000 false ∈ (run envBindNone).1 ∧
    (Ev.close 0 ∈ (run envBindNone).1 ∧
      (Ev.draw 1 (randint LOW HIGH (envBindNone.draw 1)) ∈ (run envBindNone).1 ∨
        Ev.print 0 ∈ (run envBindNone).1) ∧
      ((∀ k, envBindNone.createOk k = true) → (∀ k, envBindNone.sockoptOk k = true) →
        (run envBindNone).2 = Outcome.exited 0)) :=
  ⟨by decide, c6_bind_failure_local envBindNone 0 20000 (by decide)⟩

/-- If the first `d` attempts from index `k` all complete with a failed
bind, and on attempt `k + d` socket creation raises (or creation
succeeds and `setsockopt` raises), the loop ends in an uncaught crash:
no handler catches such failures. -/
theorem runFrom_crash_reach (env : Env) :
    ∀ d k fuel, d < fuel →
      (∀ j, j < d → env.createOk (k + j) = true ∧ env.sockoptOk (k + j) = true ∧
        env.bindOk (k + j) (randint LOW HIGH (env.draw (k + j))) = false) →
      (env.createOk (k + d) = false ∨
        (env.createOk (k + d) = true ∧ env.sockoptOk (k + d) = false)) →
      (runFrom env k fuel).2 = Outcome.crashed := by
  intro d
  induction d with
  | zero =>
    intro k fuel hf hpre hfail
    cases fuel with
    | zero => omega
    | succ f =>
      rcases hfail with hc | ⟨hc, hs⟩
      · exact runFrom_createFail_snd env k f hc
      · exact runFrom_sockoptFail_snd env k f hc hs
  | succ d ih =>
    intro k fuel hf hpre hfail
    cases fuel with
    | zero => omega
    | succ f =>
      obtain ⟨hc0, hs0, hb0⟩ := hpre 0 (Nat.succ_pos d)
      rw [runFrom_bindfail_snd env k f hc0 hs0 hb0]
      refine ih (k + 1) f (by omega) (fun j hj => ?_) ?_
      · have he : k + 1 + j = k + (j + 1) := by omega
        rw [he]
        exact hpre (j + 1) (by omega)
      · have he : k + 1 + d = k + (d + 1) := by omega
        rw [he]
        exact hfail

/-- C9: only bind failures are caught and recovered; if, on a reachable
attempt, socket creation raises (or creation succeeds and setting the
socket option raises), the failure is not special-cased and the process
terminates as an uncaught failure. -/
theorem c9_unexpected_errors_propagate (env : Env) (i : Nat) (hi : i < 100)
    (hpre : ∀ j, j < i → env.createOk j = true ∧ env.sockoptOk j = true ∧
      env.bindOk j (randint LOW HIGH (env.draw j)) = false)
    (hfail : env.createOk i = false ∨
      (env.createOk i = true ∧ env.sockoptOk i = false)) :
    (run env).2 = Outcome.crashed := by
  refine runFrom_crash_reach env i 0 100 hi (fun j hj => ?_) ?_
  · simp only [Nat.zero_add]
    exact hpre j hj
  · simp only [Nat.zero_add]
    exact hfail

/-- Witness for C9: when socket creation raises on the very first
attempt, the run crashes. -/
theorem c9_unexpected_errors_propagate_witness :
    (run envCreateRaises).2 = Outcome.crashed :=
  c9_unexpected_errors_propagate envCreateRaises 0 (by decide)
    (fun j hj => absurd hj (Nat.not_lt_zero j)) (Or.inl rfl)

/-- Two environments that agree on the random draws, on the outcome of
every socket creation and `setsockopt`, and on the bind outcome at the
drawn port of every attempt, give identical loop runs. -/
theorem runFrom_congr (e1 e2 : Env)
    (hd : ∀ i, e1.draw i = e2.draw i)
    (hc : ∀ i, e1.createOk i = e2.createOk i)
    (hs : ∀ i, e1.sockoptOk i = e2.sockoptOk i)
    (hb : ∀ i, e1.bindOk i (randint LOW HIGH (e1.draw i)) =
      e2.bindOk i (randint LOW HIGH (e2.draw i))) :
    ∀ fuel i, runFrom e1 i fuel = runFrom e2 i fuel := by
  intro fuel
  induction fuel with
  | zero => intro i; rfl
  | succ f ih =>
    intro i
    have hb2 := hb i
    rw [hd i] at hb2
    simp only [runFrom, hd i, hc i, hs i, hb2, ih (i + 1)]

/-- C10: the program is deterministic given its environment inputs: two
runs that observe the same random draws, the same socket-creation and
`setsockopt` outcomes, and the same bind outcome at each attempt produce
the same trace (hence the same printed output) and the same process
outcome. -/
theorem c10_deterministic (e1 e2 : Env)
    (hd : ∀ i, e1.draw i = e2.draw i)
    (hc : ∀ i, e1.createOk i = e2.createOk i)
    (hs : ∀ i, e1.sockoptOk i = e2.sockoptOk i)
    (hb : ∀ i, e1.bindOk i (randint LOW HIGH (e1.draw i)) =
      e2.bindOk i (randint LOW HIGH (e2.draw i))) :
    run e1 = run e2 :=
  runFrom_congr e1 e2 hd hc hs hb 100 0

/-- Environment with the same observable outcomes as `envBindNone` but a
different bind oracle away from the drawn ports. -/
def envBindNoneAlt : Env :=
  ⟨fun _ => 0, fun _ => true, fun _ => true, fun _ p => decide (p < LOW)⟩

/-- Witness for C10: `envBindNone` and `envBindNoneAlt` differ as
functions but agree on every observed outcome, so their runs are
equal. -/
theorem c10_deterministic_witness : run envBindNone = run envBindNoneAlt :=
  c10_deterministic envBindNone envBindNoneAlt
    (fun _ => rfl) (fun _ => rfl) (fun _ => rfl) (fun _ => rfl)

/-- The property exactly as the claim states it (following the spec's
words): whenever the trace reports a nonzero value `v`, the socket that
was bound to `v` has already been closed at the moment of the print, so
both its successful bind and its close occur strictly before the print
event. -/
def closedBeforeReport (tr : List Ev) : Prop :=
  ∀ pre suf v, tr = pre ++ Ev.print v :: suf → v ≠ 0 →
    ∃ j, Ev.bindTry j v true ∈ pre ∧ Ev.close j ∈ pre

/-- Counterexample to C1 as stated: in the run whose first bind
succeeds, the trace is
`[draw, create, sockopt, bindTry, print 20000, close]` — the probe
socket is still open at the moment the nonzero port is printed, because
`print(port)` executes inside the `with closing(...)` block and the
close only happens while `raise SystemExit(0)` unwinds. -/
theorem c1_close_before_report_counterexample :
    ¬ closedBeforeReport (run envBindAll).1 := by
  intro h
  obtain ⟨j, hb, hcl⟩ := h
    [Ev.draw 0 20000, Ev.create 0, Ev.sockopt 0, Ev.bindTry 0 20000 true]
    [Ev.close 0] 20000 (by decide) (by decide)
  simp at hcl

/-- In any loop trace that prints a nonzero value `v`, the events before
the print contain the successful bind of a socket to `v`, and that
socket's close occurs after the print, among the remaining events before
the process exits. -/
theorem runFrom_close_after_report (env : Env) :
    ∀ fuel i pre suf v, (runFrom env i fuel).1 = pre ++ Ev.print v :: suf → v ≠ 0 →
      ∃ j, Ev.bindTry j v true ∈ pre ∧ Ev.close j ∈ suf := by
  intro fuel
  induction fuel with
  | zero =>
    intro i pre suf v h hv
    rcases pre with _ | ⟨a, pre⟩ <;> simp_all [runFrom]
  | succ f ih =>
    intro i pre suf v h hv
    cases hc : env.createOk i with
    | false =>
      rw [runFrom_createFail_fst env i f hc] at h
      rcases pre with _ | ⟨a, _ | ⟨b, pre⟩⟩ <;> simp_all
    | true =>
      cases hs : env.sockoptOk i with
      | false =>
        rw [runFrom_sockoptFail_fst env i f hc hs] at h
        rcases pre with _ | ⟨a, _ | ⟨b, _ | ⟨c, _ | ⟨d, pre⟩⟩⟩⟩ <;> simp_all
      | true =>
        cases hb : env.bindOk i (randint LOW HIGH (env.draw i)) with
        | true =>
          rw [runFrom_success_fst env i f hc hs hb] at h
          rcases pre with _ | ⟨a, _ | ⟨b, _ | ⟨c, _ | ⟨d, _ | ⟨e2, _ | ⟨g, pre⟩⟩⟩⟩⟩⟩
          · simp at h
          · simp at h
          · simp at h
          · simp at h
          · simp only [List.cons_append, List.nil_append, List.cons.injEq,
              Ev.print.injEq] at h
            obtain ⟨ha, hb2, hc2, hd2, hpv, hsuf⟩ := h
            subst ha hb2 hc2 hd2 hpv hsuf
            exact ⟨i, by simp, by simp⟩
          · simp at h
          · simp at h
        | false =>
          rw [runFrom_bindfail_fst env i f hc hs hb] at h
          rcases pre with _ | ⟨a, _ | ⟨b, _ | ⟨c, _ | ⟨d, _ | ⟨e2, pre⟩⟩⟩⟩⟩
          · simp at h
          · simp at h
          · simp at h
          · simp at h
          · simp at h
          · simp only [List.cons_append, List.cons.injEq] at h
            obtain ⟨-, -, -, -, -, hrest⟩ := h
            obtain ⟨j, hj1, hj2⟩ := ih (i + 1) pre suf v hrest hv
            exact ⟨j, List.mem_cons_of_mem _ (List.mem_cons_of_mem _
              (List.mem_cons_of_mem _ (List.mem_cons_of_mem _
                (List.mem_cons_of_mem _ hj1)))), hj2⟩

/-- C1 (amended): on the successful path the candidate port is reported
first and the probe socket is closed immediately afterwards, before the
process exits: whenever a run's trace prints a nonzero value `v`, the
successful bind of a socket to `v` precedes the print, and that socket's
close follows the print among the remaining events of the trace. -/
theorem c1_close_after_report (env : Env) (pre suf : List Ev) (v : Nat)
    (h : (run env).1 = pre ++ Ev.print v :: suf) (hv : v ≠ 0) :
    ∃ j, Ev.bindTry j v true ∈ pre ∧ Ev.close j ∈ suf :=
  runFrom_close_after_report env 100 0 pre suf v h hv

/-- Witness for the amended C1: in the run whose first bind succeeds,
the socket bound to the printed port 20000 is closed in the part of the
trace after the print. -/
theorem c1_close_after_report_witness :
    (run envBindAll).1 =
      [Ev.draw 0 20000, Ev.create 0, Ev.sockopt 0, Ev.bindTry 0 20000 true] ++
        Ev.print 20000 :: [Ev.close 0] ∧
    ∃ j, Ev.bindTry j 20000 true ∈
        [Ev.draw 0 20000, Ev.create 0, Ev.sockopt 0, Ev.bindTry 0 20000 true] ∧
      Ev.close j ∈ [Ev.close 0] :=
  ⟨by decide, c1_close_after_report envBindAll
    [Ev.draw 0 20000, Ev.create 0, Ev.sockopt 0, Ev.bindTry 0 20000 true]
    [Ev.close 0] 20000 (by decide) (by decide)⟩
